import Mathlib

set_option maxHeartbeats 1000000

/-!
Shallow embedding of the asn-data-collector repository (ripe-ris-collector.py).

The program resolves /16 network blocks to ASN attribution records through a
cascade of sources (Team Cymru bulk whois, five regional registry HTTP APIs,
an RDAP/WHOIS fallback), enriches the result, and drives a checkpointed batch
over all blocks of an input log.  Network and file-system effects are modelled
by explicit environments; Python dynamic values flowing out of JSON responses
are modelled by the JVal type, and Python exceptions by Except Unit.  A
function that Python lets raise an uncaught exception is modelled as returning
Except.error (); exceptions the source catches locally are folded away inside
the corresponding definition, mirroring the try/except structure of the code.
-/

/-- Python s.split(sep) for a one-character separator, over the character
list: empty string gives one empty piece, adjacent separators give empty
pieces, exactly as in Python. -/
def splitOnChar (sep : Char) : List Char → List (List Char)
  | [] => [[]]
  | c :: rest =>
    if c = sep then [] :: splitOnChar sep rest
    else
      match splitOnChar sep rest with
      | [] => [[c]]
      | p :: ps => (c :: p) :: ps

/-- Split a character list at every character satisfying the predicate,
keeping empty pieces. -/
def splitWhen (p : Char → Bool) : List Char → List (List Char)
  | [] => [[]]
  | c :: rest =>
    if p c then [] :: splitWhen p rest
    else
      match splitWhen p rest with
      | [] => [[c]]
      | q :: qs => (c :: q) :: qs

/-- Python '.'.join on character-list pieces. -/
def joinDots : List (List Char) → List Char
  | [] => []
  | [p] => p
  | p :: ps => p ++ '.' :: joinDots ps

/-- Lexicographic comparison of character lists by code point, the order
Python sorted uses on strings. -/
def charListLe : List Char → List Char → Bool
  | [], _ => true
  | _ :: _, [] => false
  | c :: cs, d :: ds =>
    if c < d then true
    else if d < c then false
    else charListLe cs ds

/-- Python string comparison a less-or-equal b. -/
def strLe (a b : String) : Bool :=
  charListLe a.toList b.toList

/-- Python s.split(sep) for a one-character separator, on strings. -/
def pySplit (sep : Char) (s : String) : List String :=
  (splitOnChar sep s.toList).map String.mk

/-- Python s.strip() with no arguments: remove leading and trailing
whitespace. -/
def pyStrip (s : String) : String :=
  String.mk (((s.toList.dropWhile Char.isWhitespace).reverse.dropWhile
    Char.isWhitespace).reverse)

/-- Python s.upper() (character-wise; all data here is ASCII). -/
def pyUpper (s : String) : String :=
  String.mk (s.toList.map Char.toUpper)

/-- Python s.startswith(pre). -/
def pyStartsWith (s pre : String) : Bool :=
  pre.toList.isPrefixOf s.toList

/-- Worker of pyReplace: replace every non-overlapping occurrence of pat,
scanning left to right.  The fuel is the input length; every step consumes
at least one character, so the fuel never runs out before the input does. -/
def replaceListFuel (pat rep : List Char) : Nat → List Char → List Char
  | _, [] => []
  | 0, l => l
  | fuel + 1, c :: rest =>
    if !pat.isEmpty && pat.isPrefixOf (c :: rest) then
      rep ++ replaceListFuel pat rep fuel (rest.drop (pat.length - 1))
    else c :: replaceListFuel pat rep fuel rest

/-- Python s.replace(pat, rep) (pat is never empty in this program). -/
def pyReplace (s pat rep : String) : String :=
  String.mk (replaceListFuel pat.toList rep.toList s.toList.length s.toList)

/-- Python '.'.join(pieces) on strings. -/
def pyJoinDot (xs : List String) : String :=
  String.mk (joinDots (xs.map String.toList))

/-- A Python/JSON dynamic value, as produced by response.json() and friends. -/
inductive JVal where
  | jstr (s : String)
  | jnum (n : Int)
  | jarr (xs : List JVal)
  | jobj (fields : List (String × JVal))
  | jnull

namespace JVal

/-- Python truthiness of a dynamic value (used by the various if-data guards). -/
def truthy : JVal → Bool
  | jstr s => !(s == "")
  | jnum n => !(n == 0)
  | jarr xs => !xs.isEmpty
  | jobj fs => !fs.isEmpty
  | jnull => false

/-- Python dict.get(key, default).  On a non-dict value the attribute access
raises AttributeError, which the code does not catch at these sites. -/
def dictGet : JVal → String → JVal → Except Unit JVal
  | jobj fs, k, dflt =>
    match fs.lookup k with
    | some v => .ok v
    | none => .ok dflt
  | _, _, _ => .error ()

/-- Python dict[key] subscription: KeyError when absent, TypeError on non-dict. -/
def pyItem : JVal → String → Except Unit JVal
  | jobj fs, k =>
    match fs.lookup k with
    | some v => .ok v
    | none => .error ()
  | _, _ => .error ()

/-- Python value[0]: first element of a list, first character of a string;
TypeError / KeyError on everything else (dict keys here are strings). -/
def index0 : JVal → Except Unit JVal
  | jarr (x :: _) => .ok x
  | jarr [] => .error ()
  | jstr s => if s == "" then .error () else .ok (jstr (String.mk [s.toList.headI]))
  | _ => .error ()

/-- Python value.upper(): AttributeError on a non-string. -/
def upperE : JVal → Except Unit String
  | jstr s => .ok (pyUpper s)
  | _ => .error ()

/-- Python value.replace(pat, rep): AttributeError on a non-string. -/
def replaceE : JVal → String → String → Except Unit JVal
  | jstr s, pat, rep => .ok (jstr (pyReplace s pat rep))
  | _, _, _ => .error ()

/-- Python str(value) / f-string formatting.  In this program it is only ever
applied to values that already passed a string check (is_valid_data succeeded
on them), so only the jstr and jnum cases are reachable; the remaining cases
are deterministic placeholders. -/
def pyStr : JVal → String
  | jstr s => s
  | jnum n => toString n
  | jnull => "None"
  | jarr _ => ""
  | jobj _ => ""

/-- Python equality between a dynamic value and a string literal: an equality
between a string and a non-string is simply False, never an error. -/
def pyEqStr (v : JVal) (s : String) : Bool :=
  match v with
  | jstr t => t == s
  | _ => false

end JVal

/-- One element of the asns list inside a route-data dict built by the code:
a dict with keys asn, holder and optionally country. -/
structure AsnEntry where
  asn : JVal
  holder : JVal
  country : Option JVal

/-- The shape of every value get_route_data returns: a dict
with data mapping to a dict whose asns key holds a list of entries. -/
structure RouteData where
  asns : List AsnEntry

/-- The canonical unresolved record returned when all sources are exhausted
(source line 225): asn is the sentinel NA and holder is the quoted sentinel. -/
def unresolved_record : RouteData :=
  ⟨[⟨JVal.jstr "NA", JVal.jstr "\x22NA\x22", none⟩]⟩

/-- is_valid_data (source lines 137-138), the inner validity predicate of
get_route_data.  Python code:
asn and holder and asn.upper() != 'NA' and holder.upper() != 'NA' and holder != '""'
evaluated left to right with short-circuiting; the .upper() calls raise
AttributeError on non-string truthy values, which propagates to the caller. -/
def is_valid_data (asn holder : JVal) : Except Unit Bool :=
  if asn.truthy = false then .ok false
  else if holder.truthy = false then .ok false
  else
    match asn.upperE with
    | .error e => .error e
    | .ok au =>
      if au == "NA" then .ok false
      else
        match holder.upperE with
        | .error e => .error e
        | .ok hu =>
          if hu == "NA" then .ok false
          else .ok (!(JVal.pyEqStr holder "\x22\x22"))

/-- The global registry endpoint table ROUTING_APIS (source lines 20-42).
Python dict iteration preserves insertion order, so the cascade visits the
registries in exactly this list order. -/
def ROUTING_APIS : List (String × List String) :=
  [("RIPE",
    ["https://stat.ripe.net/data/prefix-overview/data.json",
     "https://stat.ripe.net/data/routing-status/data.json",
     "https://stat.ripe.net/data/ris-prefixes/data.json"]),
   ("LACNIC",
    ["https://rdap.lacnic.net/rdap/ip/",
     "https://stat.lacnic.net/data/prefix-overview/"]),
   ("APNIC",
    ["https://rdap.apnic.net/rdap/ip/",
     "https://stat.apnic.net/data/prefix-overview/"]),
   ("AFRINIC",
    ["https://rdap.afrinic.net/rdap/ip/",
     "https://stat.afrinic.net/data/prefix-overview/"]),
   ("ARIN",
    ["https://rdap.arin.net/registry/ip/",
     "https://whois.arin.net/rest/ip/"])]

/-- Parsing loop inside query_team_cymru (source lines 72-83): scan the
response lines for the first line containing a pipe and not starting with
Bulk; build the record from its pipe-separated fields.  parts[6] raises
IndexError when the line has at most 6 fields; the surrounding bare except
turns that (and any socket failure) into a None result for the whole call. -/
def parseCymruLines : List String → Option RouteData
  | [] => none
  | line :: rest =>
    if line.toList.contains '|' && !(pyStartsWith line "Bulk") then
      if (pySplit '|' line).length > 6 then
        some ⟨[⟨JVal.jstr (pyStrip ((pySplit '|' line).getD 0 "")),
               JVal.jstr ("\x22" ++ pyStrip ((pySplit '|' line).getD 6 "") ++ "\x22"),
               some (JVal.jstr (if (pySplit '|' line).length > 3 then
                                  pyStrip ((pySplit '|' line).getD 3 "") else ""))⟩]⟩
      else
        none
    else
      parseCymruLines rest

/-- query_team_cymru (source lines 64-85).  The socket session is abstracted
as an Except Unit String: error models any socket-level exception, ok r the
decoded response text.  The bare except catches every exception (socket
errors and the IndexError of the parser) and returns None. -/
def query_team_cymru (sock : Except Unit String) : Option RouteData :=
  match sock with
  | .error _ => none
  | .ok response => parseCymruLines (pySplit '\n' response)

/-- RIPE branch of the RIR loop (source lines 152-158).  The guard reads
data.get('data', {}).get('asns'); inside the branch the code re-reads the
same values with subscription, which the guard has made safe, so the guarded
values are reused here.  A non-dict payload raises AttributeError, which
get_route_data does not catch. -/
def parseRIPE (data : JVal) : Except Unit (Option RouteData) :=
  match data.dictGet "data" (JVal.jobj []) with
  | .error e => .error e
  | .ok d =>
    match d.dictGet "asns" JVal.jnull with
    | .error e => .error e
    | .ok asns =>
      if asns.truthy then
        match asns.index0 with
        | .error e => .error e
        | .ok first =>
          match first.dictGet "asn" (JVal.jstr "NA") with
          | .error e => .error e
          | .ok asn =>
            match first.dictGet "holder" (JVal.jstr "NA") with
            | .error e => .error e
            | .ok holder =>
              match is_valid_data asn holder with
              | .error e => .error e
              | .ok true =>
                .ok (some ⟨[⟨JVal.jstr asn.pyStr,
                             JVal.jstr ("\x22" ++ holder.pyStr ++ "\x22"), none⟩]⟩)
              | .ok false => .ok none
      else .ok none

/-- LACNIC / APNIC / AFRINIC branches of the RIR loop (source lines 160-182);
the three branches are textually identical in the source.  handle.replace
raises AttributeError when the handle is a non-string. -/
def parseEntityRIR (data : JVal) : Except Unit (Option RouteData) :=
  match data.dictGet "entities" JVal.jnull with
  | .error e => .error e
  | .ok ents =>
    if ents.truthy then
      match ents.index0 with
      | .error e => .error e
      | .ok first =>
        match first.dictGet "handle" (JVal.jstr "NA") with
        | .error e => .error e
        | .ok handle =>
          match handle.replaceE "AS" "" with
          | .error e => .error e
          | .ok asn =>
            match first.dictGet "name" (JVal.jstr "NA") with
            | .error e => .error e
            | .ok holder =>
              match is_valid_data asn holder with
              | .error e => .error e
              | .ok true =>
                .ok (some ⟨[⟨asn,
                             JVal.jstr ("\x22" ++ holder.pyStr ++ "\x22"), none⟩]⟩)
              | .ok false => .ok none
    else .ok none

/-- ARIN branch of the RIR loop (source lines 184-190). -/
def parseARIN (data : JVal) : Except Unit (Option RouteData) :=
  match data.dictGet "handle" JVal.jnull with
  | .error e => .error e
  | .ok h =>
    if h.truthy then
      match data.dictGet "originASNs" (JVal.jobj []) with
      | .error e => .error e
      | .ok oa =>
        match oa.dictGet "originASN" (JVal.jarr [JVal.jobj []]) with
        | .error e => .error e
        | .ok lst =>
          match lst.index0 with
          | .error e => .error e
          | .ok first =>
            match first.dictGet "originAS" (JVal.jstr "NA") with
            | .error e => .error e
            | .ok oas =>
              match oas.replaceE "AS" "" with
              | .error e => .error e
              | .ok asn =>
                match data.dictGet "name" (JVal.jstr "NA") with
                | .error e => .error e
                | .ok holder =>
                  match is_valid_data asn holder with
                  | .error e => .error e
                  | .ok true =>
                    .ok (some ⟨[⟨asn,
                                 JVal.jstr ("\x22" ++ holder.pyStr ++ "\x22"), none⟩]⟩)
                  | .ok false => .ok none
    else .ok none

/-- Dispatch on the registry name, mirroring the if/elif chain of the RIR
loop (source lines 152-190). -/
def parseFor (rir : String) (data : JVal) : Except Unit (Option RouteData) :=
  if rir == "RIPE" then parseRIPE data
  else if rir == "LACNIC" then parseEntityRIR data
  else if rir == "APNIC" then parseEntityRIR data
  else if rir == "AFRINIC" then parseEntityRIR data
  else if rir == "ARIN" then parseARIN data
  else .ok none

/-- Python str.split() with no arguments: split on whitespace runs, dropping
empty pieces. -/
def pySplitWs (s : String) : List String :=
  ((splitWhen Char.isWhitespace s.toList).map String.mk).filter (fun t => !(t == ""))

/-- line.split()[1]: the second whitespace-delimited token of a line; none
models the IndexError raised when the line has fewer than two tokens. -/
def token1 (line : String) : Option String :=
  match pySplitWs line with
  | _ :: t :: _ => some t
  | _ => none

/-- Numeric value of a digit run; none when empty or containing a non-digit. -/
def digitsVal? (l : List Char) : Option Nat :=
  if l ≠ [] ∧ l.all Char.isDigit then
    some (l.foldl (fun acc c => acc * 10 + (c.toNat - 48)) 0)
  else none

/-- One octet as ipaddress accepts it: 1-3 decimal digits, no leading zero
unless the octet is exactly 0, and value at most 255. -/
def validOctet (p : List Char) : Bool :=
  decide (p ≠ []) && decide (p.length ≤ 3) && p.all Char.isDigit &&
  (decide (p.length = 1) || !(p.headI = '0')) &&
  (match digitsVal? p with
   | some v => decide (v ≤ 255)
   | none => false)

/-- Success of ipaddress.ip_address on a token, for the dotted-quad IPv4
grammar (the program only ever feeds it address-like tokens; IPv6 literals
are out of the input format and not modelled). -/
def validIPv4Tok (tok : List Char) : Bool :=
  match splitOnChar '.' tok with
  | [a, b, c, d] => validOctet a && validOctet b && validOctet c && validOctet d
  | _ => false

/-- The numeric values of the first two dot-separated fields of a string
(an address a.b.c.d or a subnet string a.b.0.0/16). -/
def firstTwoOctetVals (s : String) : Option (Nat × Nat) :=
  match splitOnChar '.' s.toList with
  | a :: b :: _ =>
    match digitsVal? a, digitsVal? b with
    | some x, some y => some (x, y)
    | _, _ => none
  | _ => none

/-- ipaddress.ip_address(ip) in ipaddress.ip_network(subnet) for the /16
subnets this program builds: membership holds exactly when the first two
octets agree numerically. -/
def inSubnet16 (ip subnet : String) : Bool :=
  match firstTwoOctetVals ip, firstTwoOctetVals subnet with
  | some p, some q => decide (p = q)
  | _, _ => false

/-- get_sample_ip_for_subnet (source lines 104-110), over the list of input
lines.  The body has no try/except: line.split()[1] raises IndexError on a
short line and ip_address raises ValueError on a malformed token, and both
propagate to the caller (modelled as error). -/
def get_sample_ip_for_subnet (subnet : String) : List String → Except Unit (Option String)
  | [] => .ok none
  | line :: rest =>
    match token1 line with
    | none => .error ()
    | some ip =>
      if validIPv4Tok ip.toList then
        if inSubnet16 ip subnet then .ok (some ip)
        else get_sample_ip_for_subnet subnet rest
      else .error ()

/-- The outside world of one get_route_data call.
cymruResponse abstracts the whois.cymru.com TCP session of query_team_cymru;
rirResponse abstracts query_rir_api (source lines 112-134): none models a
timeout, a non-200 status, a request exception or an invalid-JSON body (all
caught inside query_rir_api), some j a 200 response with JSON body j;
sampleIp abstracts the get_sample_ip_for_subnet file scan, and rdapResult the
IPWhois(...).lookup_rdap() call (error models any exception it raises, all of
which the fallback catches). -/
structure SourceEnv where
  cymruResponse : Except Unit String
  rirResponse : String → Option JVal
  sampleIp : Except Unit (Option String)
  rdapResult : Except Unit JVal

/-- One iteration of the inner endpoint loop (source lines 149-190):
query_rir_api followed, when the payload is truthy, by the registry-specific
parser. -/
def tryEndpoint (env : SourceEnv) (rir ep : String) : Except Unit (Option RouteData) :=
  match env.rirResponse ep with
  | none => .ok none
  | some d => if d.truthy then parseFor rir d else .ok none

/-- The inner for-endpoint loop of get_route_data. -/
def endpointsLoop (env : SourceEnv) (rir : String) : List String → Except Unit (Option RouteData)
  | [] => .ok none
  | ep :: rest =>
    match tryEndpoint env rir ep with
    | .error e => .error e
    | .ok (some r) => .ok (some r)
    | .ok none => endpointsLoop env rir rest

/-- The outer for-rir loop of get_route_data (source line 148). -/
def rirLoop (env : SourceEnv) : List (String × List String) → Except Unit (Option RouteData)
  | [] => .ok none
  | (rir, eps) :: rest =>
    match endpointsLoop env rir eps with
    | .error e => .error e
    | .ok (some r) => .ok (some r)
    | .ok none => rirLoop env rest

/-- The dict navigation inside the RDAP fallback (source lines 201-216),
entirely inside the try, so an error outcome here is caught by the fallback. -/
def parseRdapResults (results : JVal) : Except Unit (Option RouteData) :=
  match results.dictGet "asn" JVal.jnull with
  | .error e => .error e
  | .ok a =>
    if a.truthy then
      match results.dictGet "network" (JVal.jobj []) with
      | .error e => .error e
      | .ok netw =>
        match netw.dictGet "name" JVal.jnull with
        | .error e => .error e
        | .ok nm =>
          if nm.truthy then
            match results.dictGet "asn_country_code" (JVal.jstr "") with
            | .error e => .error e
            | .ok country =>
              match is_valid_data a nm with
              | .error e => .error e
              | .ok true =>
                .ok (some ⟨[⟨a, JVal.jstr ("\x22" ++ nm.pyStr ++ "\x22"), some country⟩]⟩)
              | .ok false => .ok none
          else .ok none
    else .ok none

/-- The RDAP/WHOIS fallback phase of get_route_data (source lines 192-222).
The sample-address scan runs outside the try, so its exceptions propagate;
everything from the IPWhois lookup on is inside the try and every exception
there is caught and turns into no result. -/
def rdapPhase (env : SourceEnv) : Except Unit (Option RouteData) :=
  match env.sampleIp with
  | .error e => .error e
  | .ok none => .ok none
  | .ok (some _) =>
    match env.rdapResult with
    | .error _ => .ok none
    | .ok results =>
      match parseRdapResults results with
      | .error _ => .ok none
      | .ok o => .ok o

/-- The portion of get_route_data after the Team Cymru attempt: the RIR loop,
then the RDAP fallback, then the canonical unresolved record (source lines
146-225). -/
def routeDataAfterCymru (env : SourceEnv) : Except Unit RouteData :=
  match rirLoop env ROUTING_APIS with
  | .error e => .error e
  | .ok (some r) => .ok r
  | .ok none =>
    match rdapPhase env with
    | .error e => .error e
    | .ok (some r) => .ok r
    | .ok none => .ok unresolved_record

/-- get_route_data (source lines 136-225): the resolution cascade for one
block.  The Team Cymru result is checked first (the guard short-circuits, so
the validity check only runs when a record came back; the asns[0]
subscription would raise on an empty list, which the parser never builds). -/
def get_route_data (env : SourceEnv) : Except Unit RouteData :=
  match query_team_cymru env.cymruResponse with
  | some cd =>
    (match cd.asns with
     | [] => .error ()
     | e :: _ =>
       match is_valid_data e.asn e.holder with
       | .error err => .error err
       | .ok true => .ok cd
       | .ok false => routeDataAfterCymru env)
  | none => routeDataAfterCymru env

/-- Word character for the regex word boundary (ASCII letters, digits, underscore). -/
def isWordChar (c : Char) : Bool :=
  c.isAlphanum || c = '_'

/-- Longest digit prefix of a character list and the remainder. -/
def takeDigits : List Char → List Char × List Char
  | [] => ([], [])
  | c :: rest =>
    if c.isDigit then
      let (ds, r) := takeDigits rest
      (c :: ds, r)
    else ([], c :: rest)

/-- One repetition of the ip-pattern group: one to three digits followed by a
literal dot.  A run of more than three digits can never match (the quantifier
cannot leave a digit in front of the required dot), so the match is
deterministic. -/
def matchOctetDot (l : List Char) : Option (List Char × List Char) :=
  let (ds, r) := takeDigits l
  if ds ≠ [] ∧ ds.length ≤ 3 then
    match r with
    | '.' :: r2 => some (ds, r2)
    | _ => none
  else none

/-- Attempt to match the ip_pattern regex of get_unique_subnets (source line
88) at the start of the character list, returning the matched token and the
remainder.  The trailing word boundary requires the next character, if any,
to be a non-word character. -/
def matchIpAt (l : List Char) : Option (List Char × List Char) :=
  match matchOctetDot l with
  | none => none
  | some (a, r1) =>
    match matchOctetDot r1 with
    | none => none
    | some (b, r2) =>
      match matchOctetDot r2 with
      | none => none
      | some (c, r3) =>
        let (d, r4) := takeDigits r3
        if decide (d ≠ []) && decide (d.length ≤ 3) &&
           (match r4 with | [] => true | x :: _ => !(isWordChar x)) then
          some (a ++ '.' :: b ++ '.' :: c ++ '.' :: d, r4)
        else none

/-- Left-to-right non-overlapping scan of re.findall for the ip pattern.
The Boolean argument records whether the previous character was a word
character (the leading word boundary holds exactly when it was not; a match
can only start at a digit).  The fuel argument is the remaining input length;
every step consumes at least one character, so the fuel never runs out before
the input does. -/
def scanIpsFuel : Nat → Bool → List Char → List (List Char)
  | 0, _, _ => []
  | _ + 1, _, [] => []
  | fuel + 1, prevWord, c :: rest =>
    if !prevWord && c.isDigit then
      match matchIpAt (c :: rest) with
      | some (tok, rest') => tok :: scanIpsFuel fuel true rest'
      | none => scanIpsFuel fuel (isWordChar c) rest
    else scanIpsFuel fuel (isWordChar c) rest

/-- re.findall(ip_pattern, line) (source line 93). -/
def findIpTokens (line : List Char) : List (List Char) :=
  scanIpsFuel line.length false line

/-- The block derivation of get_unique_subnets (source line 97):
'.'.join(ip.split('.')[:2]) + '.0.0/16'. -/
def subnetOfTok (tok : List Char) : List Char :=
  joinDots ((splitOnChar '.' tok).take 2) ++ ".0.0/16".toList

/-- One counter bump of subnet_counts[network] (source line 98); the
association list preserves dict insertion order. -/
def bumpCount : List (String × Nat) → String → List (String × Nat)
  | [], k => [(k, 1)]
  | (k', n) :: rest, k =>
    if k' == k then (k', n + 1) :: rest else (k', n) :: bumpCount rest k

/-- Processing of one input line by get_unique_subnets: count every found
token that ip_address accepts, silently skipping the rest (the except
ValueError: continue of source lines 99-100). -/
def tallyLine (acc : List (String × Nat)) (line : String) : List (String × Nat) :=
  (findIpTokens line.toList).foldl
    (fun a tok =>
      if validIPv4Tok tok then bumpCount a (String.mk (subnetOfTok tok)) else a)
    acc

/-- Insertion into a (lexicographically) sorted list of strings. -/
def insertSortedStr (x : String) : List String → List String
  | [] => [x]
  | y :: ys => if strLe x y then x :: y :: ys else y :: insertSortedStr x ys

/-- Python sorted on a list of strings. -/
def sortStrings : List String → List String
  | [] => []
  | x :: xs => insertSortedStr x (sortStrings xs)

/-- get_unique_subnets (source lines 87-102): the sorted block list and the
per-block occurrence counts. -/
def get_unique_subnets (lines : List String) : List String × List (String × Nat) :=
  let counts := lines.foldl tallyLine []
  (sortStrings (counts.map Prod.fst), counts)

/-- subnet_counts[subnet] (source line 326); the key is always present
because the driver only looks up blocks produced by get_unique_subnets. -/
def lookupCount (counts : List (String × Nat)) (k : String) : Nat :=
  match counts.lookup k with
  | some n => n
  | none => 0

/-- One row of the summary CSV (source lines 320-327). -/
structure SummaryRow where
  subnet : String
  asn : String
  asn_desc : String
  country : String
  count : Nat
deriving DecidableEq

/-- One row of the detailed CSV (source line 334). -/
structure DetailRow where
  original_line : String
  subnet : String
  asn : String
  asn_desc : String
  country : String
deriving DecidableEq

/-- The mutable state of one process_routes run: the two output files, the
checkpoint file content, the in-memory processed_subnets set, plus two
bookkeeping traces (which blocks were looked up by the cascade and which ASNs
were passed to enrichment) that record the side effects the claims speak
about. -/
structure RunState where
  summaryRows : List SummaryRow
  detailRows : List DetailRow
  checkpoint : List String
  processedSubnets : List String
  queried : List String
  enriched : List String
deriving DecidableEq

/-- get_asn_info (source lines 227-236): walk the registries' primary
endpoints; the argument list holds each endpoint's response in order, none
standing for any exception (all swallowed by the bare except).  The first
response whose data or objects entry is truthy is returned as is; afterwards
the fallback dict with an empty data dict. -/
def get_asn_info : List (Option JVal) → JVal
  | [] => JVal.jobj [("data", JVal.jobj [])]
  | none :: rest => get_asn_info rest
  | some data :: rest =>
    match data.dictGet "data" JVal.jnull with
    | .error _ => get_asn_info rest
    | .ok dv =>
      if dv.truthy then data
      else
        match data.dictGet "objects" JVal.jnull with
        | .error _ => get_asn_info rest
        | .ok ov => if ov.truthy then data else get_asn_info rest

/-- The enrichment merge of process_routes (source lines 314-315):
holder = asn_data['data'].get('holder', cascade holder)
country = asn_data['data'].get('country', cascade country or '')
The ['data'] subscription raises KeyError when get_asn_info returned a dict
without a data key and AttributeError when data is not a dict; both are
caught by the per-block handler of the driver. -/
def enrichMerge (asn_data : JVal) (first : AsnEntry) : Except Unit (JVal × JVal) :=
  match asn_data.pyItem "data" with
  | .error e => .error e
  | .ok d =>
    match d.dictGet "holder" first.holder with
    | .error e => .error e
    | .ok holder =>
      match d.dictGet "country" (match first.country with
                                 | some c => c
                                 | none => JVal.jstr "") with
      | .error e => .error e
      | .ok country => .ok (holder, country)

/-- The external world of one process_routes run: per-subnet source
behaviour for the cascade, per-ASN responses of the registries' primary
endpoints for get_asn_info, the content of the input log, and the outputs of
the two dig commands of query_cymru_dns (keyed by the reversed address and by
the ASN respectively; an empty string models empty stdout). -/
structure RunEnv where
  cymru : String → Except Unit String
  rir : String → String → Option JVal
  rdap : String → Except Unit JVal
  asnInfo : String → List (Option JVal)
  inputLines : List String
  digOrigin : String → String
  digAsn : String → String

/-- The SourceEnv a process_routes run presents to get_route_data for one
subnet: the RDAP sample address is obtained by scanning the input file
(source line 194 passes INPUT_FILE). -/
def sourceEnvFor (env : RunEnv) (subnet : String) : SourceEnv :=
  ⟨env.cymru subnet, env.rir subnet,
   get_sample_ip_for_subnet subnet env.inputLines, env.rdap subnet⟩

/-- The detailed-file write loop (source lines 330-334): scan the input file
and append one row per line whose second token lies in the subnet.  Rows
already written stay written when a later line raises (IndexError on a short
line, ValueError on a token ip_address rejects); the Boolean records whether
the scan completed without an exception. -/
def writeDetailRows (lines : List String) (subnet : String) (asn holder country : JVal) :
    List DetailRow × Bool :=
  match lines with
  | [] => ([], true)
  | line :: rest =>
    match token1 line with
    | none => ([], false)
    | some ip =>
      if validIPv4Tok ip.toList then
        if inSubnet16 ip subnet then
          let row : DetailRow :=
            ⟨pyStrip line, subnet, asn.pyStr, holder.pyStr, country.pyStr⟩
          let (rows, okScan) := writeDetailRows rest subnet asn holder country
          (row :: rows, okScan)
        else writeDetailRows rest subnet asn holder country
      else ([], false)

/-- The body of the per-subnet try block of process_routes (source lines
308-346), applied to an already obtained route_data value.  Any error of the
enrichment merge or of the detailed write leaves the block unmarked (the
except of line 343 continues with the next subnet); the checkpoint and the
in-memory set are appended only at the very end (lines 338-341). -/
def processBlockData (env : RunEnv) (counts : List (String × Nat)) (subnet : String)
    (st : RunState) (route : RouteData) : RunState :=
  match route.asns with
  | first :: _ =>
    let st1 := { st with enriched := st.enriched ++ [first.asn.pyStr] }
    let asnData := get_asn_info (env.asnInfo first.asn.pyStr)
    match enrichMerge asnData first with
    | .error _ => st1
    | .ok (holder, country) =>
      let srow : SummaryRow :=
        ⟨subnet, first.asn.pyStr, holder.pyStr, country.pyStr, lookupCount counts subnet⟩
      let st2 := { st1 with summaryRows := st1.summaryRows ++ [srow] }
      match writeDetailRows env.inputLines subnet first.asn holder country with
      | (drows, okScan) =>
        let st3 := { st2 with detailRows := st2.detailRows ++ drows }
        if okScan then
          { st3 with checkpoint := st3.checkpoint ++ [subnet],
                     processedSubnets := st3.processedSubnets ++ [subnet] }
        else st3
  | [] =>
    { st with checkpoint := st.checkpoint ++ [subnet],
              processedSubnets := st.processedSubnets ++ [subnet] }

/-- One iteration of the main for loop of process_routes (source lines
300-348): skip a block of the completed set entirely, otherwise query the
cascade (whose uncaught exceptions abort the whole run, since the call of
line 306 sits outside the try) and run the block body. -/
def processOneSubnet (env : RunEnv) (counts : List (String × Nat)) (subnet : String)
    (st : RunState) : Except Unit RunState :=
  if subnet ∈ st.processedSubnets then .ok st
  else
    match get_route_data (sourceEnvFor env subnet) with
    | .error e => .error e
    | .ok route =>
      .ok (processBlockData env counts subnet
            { st with queried := st.queried ++ [subnet] } route)

/-- The main for loop of process_routes over the sorted subnet list. -/
def runLoop (env : RunEnv) (counts : List (String × Nat)) :
    List String → RunState → Except Unit RunState
  | [], st => .ok st
  | subnet :: rest, st =>
    match processOneSubnet env counts subnet st with
    | .error e => .error e
    | .ok st' => runLoop env counts rest st'

/-- Python str.strip() followed by str.strip(quote): remove surrounding
whitespace, then all leading and trailing double-quote characters. -/
def pyStripQuotes (s : String) : String :=
  String.mk ((((pyStrip s).toList.dropWhile (fun c => c = '"')).reverse.dropWhile
    (fun c => c = '"')).reverse)

/-- query_cymru_dns (source lines 44-62).  The two dig invocations are
abstracted by the environment functions: the first keyed by the reversed
address, the second by the ASN extracted from the first answer; an empty
string models empty stdout, upon which the function returns the none pair. -/
def query_cymru_dns (digOrigin digAsn : String → String) (ip : String) :
    Option (String × String) :=
  let reversedIp := pyJoinDot (pySplit '.' ip).reverse
  let out1 := digOrigin reversedIp
  if out1 == "" then none
  else
    let asn := pyStripQuotes ((pySplit '|' out1).getD 0 "")
    let out2 := digAsn asn
    if out2 == "" then none
    else
      let parts := pySplit '|' (pyStripQuotes out2)
      let asnDesc := if parts.length > 4 then pyStrip (parts.getD 4 "") else ""
      some (asn, "\x22" ++ asnDesc ++ "\x22")

/-- The missing-entry selection of the repair pass (source lines 358-362):
asn uppercases to NA and asn_desc uppercases to the quoted or bare NA
sentinel, or both cells are absent (a pandas NaN, modelled as the empty
string). -/
def isMissingRow (r : DetailRow) : Bool :=
  (pyUpper r.asn == "NA" &&
    (pyUpper r.asn_desc == "\x22NA\x22" || pyUpper r.asn_desc == "NA"))
  || (r.asn == "" && r.asn_desc == "")

/-- The pandas preprocessing of source lines 355-356: collapse tripled CSV
quotes in the asn_desc column. -/
def fixTripleQuotes (s : String) : String :=
  pyReplace s "\x22\x22\x22" "\x22"

/-- The summary update of the repair pass (source lines 382-385): overwrite
asn and asn_desc of the first summary row whose subnet matches, if any. -/
def updateSummaryFirst (rows : List SummaryRow) (subnet a desc : String) : List SummaryRow :=
  match rows with
  | [] => []
  | r :: rest =>
    if r.subnet == subnet then { r with asn := a, asn_desc := desc } :: rest
    else r :: updateSummaryFirst rest subnet a desc

/-- The repair loop of process_routes (source lines 369-392) over the
detailed rows, threading the summary rows and an updated flag.  The
original_line split (line 370) runs without a try, so a short line aborts the
whole run.  A row is repaired only when query_cymru_dns yields a truthy asn
and description (the asn can be empty when the first dig answer starts with a
pipe). -/
def repairLoop (digOrigin digAsn : String → String) :
    List DetailRow → List SummaryRow → Except Unit (List DetailRow × List SummaryRow × Bool)
  | [], summary => .ok ([], summary, false)
  | r :: rest, summary =>
    if isMissingRow r then
      match token1 r.original_line with
      | none => .error ()
      | some ip =>
        match query_cymru_dns digOrigin digAsn ip with
        | some (a, desc) =>
          if !(a == "") && !(desc == "") then
            let summary2 := updateSummaryFirst summary r.subnet a desc
            match repairLoop digOrigin digAsn rest summary2 with
            | .error e => .error e
            | .ok (d, s, _) => .ok ({ r with asn := a, asn_desc := desc } :: d, s, true)
          else
            match repairLoop digOrigin digAsn rest summary with
            | .error e => .error e
            | .ok (d, s, u) => .ok (r :: d, s, u)
        | none =>
          match repairLoop digOrigin digAsn rest summary with
          | .error e => .error e
          | .ok (d, s, u) => .ok (r :: d, s, u)
    else
      match repairLoop digOrigin digAsn rest summary with
      | .error e => .error e
      | .ok (d, s, u) => .ok (r :: d, s, u)

/-- The whole check_missing pass (source lines 350-399): read both files,
normalise tripled quotes, repair the missing rows, and rewrite the files only
when at least one row was updated (otherwise the files keep their original
content, including the unnormalised quoting). -/
def repairPass (digOrigin digAsn : String → String)
    (detailed : List DetailRow) (summary : List SummaryRow) :
    Except Unit (List DetailRow × List SummaryRow) :=
  let dPre := detailed.map (fun r => { r with asn_desc := fixTripleQuotes r.asn_desc })
  let sPre := summary.map (fun r => { r with asn_desc := fixTripleQuotes r.asn_desc })
  match repairLoop digOrigin digAsn dPre sPre with
  | .error e => .error e
  | .ok (d, s, updated) => if updated then .ok (d, s) else .ok (detailed, summary)

/-- The observable outcome of a process_routes run. -/
structure FinalOutcome where
  state : RunState
  summaryFile : List SummaryRow
  detailedFile : List DetailRow
  checkpointDeleted : Bool
deriving DecidableEq

/-- process_routes (source lines 249-408).  initialProcessed and resumed
describe the checkpoint selection phase (lines 259-285): the set loaded from
a chosen checkpoint file and whether such a file pre-exists; priorSummary and
priorDetailed are the rows already present in resumed output files.  The
final checkpoint deletion (lines 401-403) happens whenever the run reaches
the end without an uncaught exception and the checkpoint file exists, that
is, when the run was resumed or at least one block was checkpointed. -/
def process_routes (env : RunEnv) (checkMissing : Bool)
    (initialProcessed : List String) (resumed : Bool)
    (priorSummary : List SummaryRow) (priorDetailed : List DetailRow) :
    Except Unit FinalOutcome :=
  match runLoop env (get_unique_subnets env.inputLines).2 (get_unique_subnets env.inputLines).1
      ⟨[], [], [], initialProcessed, [], []⟩ with
  | .error e => .error e
  | .ok st =>
    match (if checkMissing then
             repairPass env.digOrigin env.digAsn
               (priorDetailed ++ st.detailRows) (priorSummary ++ st.summaryRows)
           else .ok (priorDetailed ++ st.detailRows, priorSummary ++ st.summaryRows)) with
    | .error e => .error e
    | .ok (d, s) =>
      .ok ⟨st, s, d, resumed || !st.checkpoint.isEmpty⟩

/-- Outbound-call events of one cascade run, for the rate-limiting claim:
the Team Cymru TCP query (source line 67), one registry HTTP request (source
line 115), the RDAP lookup (source line 199), and one sleep of
RATE_LIMIT_DELAY milliseconds (the finally of source line 134). -/
inductive NetEvent where
  | callCymru
  | callRir
  | callRdap
  | sleepEv
deriving DecidableEq

/-- Events of the inner endpoint loop: query_rir_api always performs the
request and always sleeps in its finally clause, whatever the outcome; the
loop stops after the endpoint whose parse returns a record or raises. -/
def endpointsEvents (env : SourceEnv) (rir : String) : List String → List NetEvent × Bool
  | [] => ([], false)
  | ep :: rest =>
    match tryEndpoint env rir ep with
    | .error _ => ([.callRir, .sleepEv], true)
    | .ok (some _) => ([.callRir, .sleepEv], true)
    | .ok none =>
      (.callRir :: .sleepEv :: (endpointsEvents env rir rest).1,
       (endpointsEvents env rir rest).2)

/-- Events of the outer registry loop. -/
def rirsEvents (env : SourceEnv) : List (String × List String) → List NetEvent × Bool
  | [] => ([], false)
  | (rir, eps) :: rest =>
    if (endpointsEvents env rir eps).2 then ((endpointsEvents env rir eps).1, true)
    else ((endpointsEvents env rir eps).1 ++ (rirsEvents env rest).1,
          (rirsEvents env rest).2)

/-- Events of the RDAP fallback: the lookup runs only when a sample address
was found (and the sample scan did not raise); no sleep follows it inside
get_route_data. -/
def rdapEvents (env : SourceEnv) : List NetEvent :=
  match env.sampleIp with
  | .error _ => []
  | .ok none => []
  | .ok (some _) => [.callRdap]

/-- Events of the cascade after the Team Cymru attempt. -/
def cascadeRestEvents (env : SourceEnv) : List NetEvent :=
  if (rirsEvents env ROUTING_APIS).2 then (rirsEvents env ROUTING_APIS).1
  else (rirsEvents env ROUTING_APIS).1 ++ rdapEvents env

/-- The outbound-call event trace of one get_route_data run.  query_team_cymru
performs its TCP exchange first and is not followed by any sleep (source
lines 64-85 contain no rate limiting); the rest of the trace follows the
cascade's control flow. -/
def cascadeEvents (env : SourceEnv) : List NetEvent :=
  match query_team_cymru env.cymruResponse with
  | some cd =>
    (match cd.asns with
     | [] => [.callCymru]
     | e :: _ =>
       match is_valid_data e.asn e.holder with
       | .error _ => [.callCymru]
       | .ok true => [.callCymru]
       | .ok false => .callCymru :: cascadeRestEvents env)
  | none => .callCymru :: cascadeRestEvents env

/-- The property claim C6 asserts of a trace: between any two outbound calls
there is a delay, that is, no two call events are adjacent. -/
def delayedAfterEachCall : List NetEvent → Bool
  | [] => true
  | [_] => true
  | e1 :: e2 :: rest =>
    if !(e1 == NetEvent.sleepEv) && !(e2 == NetEvent.sleepEv) then false
    else delayedAfterEachCall (e2 :: rest)

/-- Every registry HTTP call is immediately followed by a sleep event. -/
def rirCallsSlept : List NetEvent → Bool
  | [] => true
  | NetEvent.callRir :: NetEvent.sleepEv :: rest => rirCallsSlept rest
  | NetEvent.callRir :: _ => false
  | _ :: rest => rirCallsSlept rest

/-- Modelled from the spec for the refinement claim C1: the outcome of the
Team Cymru source attempt alone, namely its parsed record when that record
passes the validity predicate. -/
def cymruAttempt (env : SourceEnv) : Except Unit (Option RouteData) :=
  match query_team_cymru env.cymruResponse with
  | none => .ok none
  | some cd =>
    match cd.asns with
    | [] => .error ()
    | e :: _ =>
      match is_valid_data e.asn e.holder with
      | .error err => .error err
      | .ok true => .ok (some cd)
      | .ok false => .ok none

/-- Modelled from the spec for the refinement claim C1: the cascade as the
spec words it, a single flat list of per-source attempts in the fixed
priority order: Team Cymru, then every endpoint of RIPE, LACNIC, APNIC,
AFRINIC, ARIN in turn, then the RDAP fallback.  The per-source parsers and
validity check are those of the code. -/
def cascadeSources (env : SourceEnv) : List (Except Unit (Option RouteData)) :=
  cymruAttempt env ::
    (ROUTING_APIS.flatMap (fun p => p.2.map (fun ep => tryEndpoint env p.1 ep)) ++
     [rdapPhase env])

/-- Modelled from the spec for the refinement claim C1: return the result of
the first source whose parsed record satisfies the validity predicate,
falling back to the canonical unresolved record; a source that raises aborts
the cascade. -/
def firstValidSource : List (Except Unit (Option RouteData)) → Except Unit RouteData
  | [] => .ok unresolved_record
  | .error e :: _ => .error e
  | .ok (some r) :: _ => .ok r
  | .ok none :: rest => firstValidSource rest

/-- Modelled from the spec for claim C2: the validity predicate as the claim
states it, on string-valued fields: both non-empty and neither
case-insensitively equal to the sentinel NA. -/
def specValid (asn holder : String) : Bool :=
  !(asn == "") && !(holder == "") && !(pyUpper asn == "NA") && !(pyUpper holder == "NA")

/-- Modelled from the spec for claim C9: the number of valid address
occurrences across all input lines whose derived block is the given one. -/
def blockOccurrences (lines : List String) (b : String) : Nat :=
  (lines.map (fun line =>
    ((findIpTokens line.toList).filter validIPv4Tok).countP
      (fun tok => String.mk (subnetOfTok tok) == b))).sum

/-- Claim C9 speaks of the number of input lines in which a block appears. -/
def linesContainingBlock (lines : List String) (b : String) : Nat :=
  lines.countP (fun line =>
    ((findIpTokens line.toList).filter validIPv4Tok).any
      (fun tok => String.mk (subnetOfTok tok) == b))

/-- Modelled from the spec for claim C8: the repair outcome of one detailed
row, when its original line has a second token: the DNS answer pair when the
row is selected as missing and both DNS queries yield truthy data. -/
def repairedFields (digOrigin digAsn : String → String) (r : DetailRow) :
    Option (String × String) :=
  if isMissingRow r then
    match token1 r.original_line with
    | none => none
    | some ip =>
      match query_cymru_dns digOrigin digAsn ip with
      | some (a, desc) =>
        if !(a == "") && !(desc == "") then some (a, desc) else none
      | none => none
  else none

/-- Modelled from the spec for claim C8: one detailed row after the repair
pass: updated in place when repairable, untouched otherwise. -/
def rowRepair (digOrigin digAsn : String → String) (r : DetailRow) : DetailRow :=
  match repairedFields digOrigin digAsn r with
  | some (a, desc) => { r with asn := a, asn_desc := desc }
  | none => r

/-- Modelled from the spec for claim C8: the summary rows after the repair
pass: for every repaired detailed row, in file order, the first summary row
with the matching subnet is overwritten with the DNS answer. -/
def summaryAfterRepair (digOrigin digAsn : String → String)
    (rows : List DetailRow) (summary : List SummaryRow) : List SummaryRow :=
  rows.foldl (fun s r =>
    match repairedFields digOrigin digAsn r with
    | some (a, desc) => updateSummaryFirst s r.subnet a desc
    | none => s) summary

/-- Concrete source environment for the claim C1 witness: the bulk source
answers with a parseable, valid record while every other source fails. -/
def c1env : SourceEnv :=
  ⟨.ok "64500 | 10.1.0.5 | 10.1.0.0/16 | AU | apnic | 2020-01-01 | Acme Co",
   fun _ => none, .ok none, .error ()⟩

/-- The record the bulk source of c1env parses to. -/
def c1record : RouteData :=
  ⟨[⟨JVal.jstr "64500", JVal.jstr "\x22Acme Co\x22", some (JVal.jstr "AU")⟩]⟩

/-- Concrete environment for the claim C3 counterexample: the bulk source
fails and the first RIPE endpoint returns a 200 response whose JSON body is a
dict whose data entry is a string, so the RIPE branch raises AttributeError
out of the cascade. -/
def c3env : SourceEnv :=
  ⟨.error (),
   fun ep =>
     if ep == "https://stat.ripe.net/data/prefix-overview/data.json" then
       some (JVal.jobj [("data", JVal.jstr "unexpected")])
     else none,
   .ok none, .error ()⟩

/-- Concrete environment for the claim C3 witness: every source fails at the
transport level. -/
def c3wenv : SourceEnv :=
  ⟨.error (), fun _ => none, .ok none, .error ()⟩

/-- Concrete environment for the claim C6 counterexample: the bulk TCP call
fails, so the cascade proceeds directly to the first registry HTTP call with
no sleep between the two outbound calls. -/
def c6env : SourceEnv :=
  ⟨.error (), fun _ => none, .ok none, .error ()⟩

/-- Trivial run environment for the claim C4 witness. -/
def c4env : RunEnv :=
  ⟨fun _ => .error (), fun _ _ => none, fun _ => .error (), fun _ => [],
   [], fun _ => "", fun _ => ""⟩

/-- Run state for the claim C4 witness, with one block already completed. -/
def c4st : RunState :=
  ⟨[], [], ["10.0.0.0/16"], ["10.0.0.0/16"], [], []⟩

/-- Run environment for the claim C10 witness: every source fails, so the
one block resolves to the canonical unresolved record and still produces a
summary row and an enrichment call. -/
def c10env : RunEnv :=
  ⟨fun _ => .error (), fun _ _ => none, fun _ => .error (), fun _ => [],
   [], fun _ => "", fun _ => ""⟩

/-- Empty initial run state for the claim C10 witness. -/
def c10st0 : RunState :=
  ⟨[], [], [], [], [], []⟩

/-- The run state after the claim C10 witness block: one summary row with
the NA sentinel, the block checkpointed, the cascade queried and the
enrichment invoked with the sentinel ASN. -/
def c10stRes : RunState :=
  ⟨[⟨"10.0.0.0/16", "NA", "\x22NA\x22", "", 0⟩], [], ["10.0.0.0/16"],
   ["10.0.0.0/16"], ["10.0.0.0/16"], ["NA"]⟩

/-- Run environment for the claim C5 counterexample: two blocks; the first
processes fully, the second fails during enrichment (its asn_data dict maps
data to a string), so it is left unprocessed while the run still finishes. -/
def c5env : RunEnv :=
  ⟨fun subnet =>
     if subnet == "10.1.0.0/16" then
       .ok "1 | 10.1.0.5 | 10.1.0.0/16 | AU | apnic | 2020-01-01 | Acme"
     else
       .ok "2 | 10.2.0.5 | 10.2.0.0/16 | AU | apnic | 2020-01-01 | Beta",
   fun _ _ => none,
   fun _ => .error (),
   fun a => if a == "2" then [some (JVal.jobj [("data", JVal.jstr "odd")])] else [],
   ["a 10.1.0.5 x", "a 10.2.0.5 y"],
   fun _ => "", fun _ => ""⟩

/-- The cascade record of the valid block of the claim C7 counterexample. -/
def c7cascadeEntry : AsnEntry :=
  ⟨JVal.jstr "64500", JVal.jstr "\x22Acme Co\x22", none⟩

/-- The enrichment answer of the claim C7 counterexample: a registry response
whose data dict carries a holder key with an empty value, accepted by
get_asn_info because its data entry is a truthy dict. -/
def c7asnData : JVal :=
  get_asn_info [some (JVal.jobj [("data", JVal.jobj [("holder", JVal.jstr "")])])]

/-- Detailed file of the claim C8 counterexample: one unresolved row. -/
def c8detailed : List DetailRow :=
  [⟨"x 1.2.3.4 y", "1.2.0.0/16", "NA", "\x22NA\x22", ""⟩]

/-- Summary file of the claim C8 counterexample: the owning block's summary
row is already resolved. -/
def c8summary : List SummaryRow :=
  [⟨"1.2.0.0/16", "64500", "\x22Acme Co\x22", "AU", 3⟩]

/-- First dig answer of the claim C8 counterexample, keyed by the reversed
address. -/
def c8digOrigin : String → String :=
  fun r => if r == "4.3.2.1" then "64501 | 1.2.3.0/24 | AU" else ""

/-- Second dig answer of the claim C8 counterexample, keyed by the ASN. -/
def c8digAsn : String → String :=
  fun a => if a == "64501" then "64501 | AU | apnic | 2020-01-01 | Other Org" else ""

theorem firstValid_endpoints (env : SourceEnv) (rir : String) (eps : List String)
    (tail : List (Except Unit (Option RouteData))) :
    firstValidSource (eps.map (tryEndpoint env rir) ++ tail) =
      match endpointsLoop env rir eps with
      | .error e => .error e
      | .ok (some r) => .ok r
      | .ok none => firstValidSource tail := by
  induction eps with
  | nil => simp [endpointsLoop]
  | cons ep rest ih =>
    simp only [List.map_cons, List.cons_append, endpointsLoop]
    cases h : tryEndpoint env rir ep with
    | error e => simp [firstValidSource]
    | ok o =>
      cases o with
      | some r => simp [firstValidSource]
      | none => simp [firstValidSource, ih]

theorem firstValid_rirs (env : SourceEnv) (apis : List (String × List String))
    (tail : List (Except Unit (Option RouteData))) :
    firstValidSource ((apis.flatMap fun p => p.2.map (tryEndpoint env p.1)) ++ tail) =
      match rirLoop env apis with
      | .error e => .error e
      | .ok (some r) => .ok r
      | .ok none => firstValidSource tail := by
  induction apis with
  | nil => simp [rirLoop]
  | cons p rest ih =>
    obtain ⟨rir, eps⟩ := p
    simp only [List.flatMap_cons, List.append_assoc, rirLoop]
    rw [firstValid_endpoints]
    cases h : endpointsLoop env rir eps with
    | error e => rfl
    | ok o =>
      cases o with
      | some r => rfl
      | none => exact ih

theorem afterCymru_eq_firstValid (env : SourceEnv) :
    routeDataAfterCymru env =
      firstValidSource
        ((ROUTING_APIS.flatMap fun p => p.2.map (tryEndpoint env p.1)) ++ [rdapPhase env]) := by
  rw [firstValid_rirs]
  unfold routeDataAfterCymru
  cases h : rirLoop env ROUTING_APIS with
  | error e => rfl
  | ok o =>
    cases o with
    | some r => rfl
    | none =>
      cases h2 : rdapPhase env with
      | error e => simp [firstValidSource]
      | ok o2 => cases o2 <;> simp [firstValidSource]

/-- Claim C1: for every network block, resolve queries its sources strictly
in the fixed priority order Team Cymru bulk TCP, then RIPE, LACNIC, APNIC,
AFRINIC, ARIN (each endpoint in turn), then the RDAP/WHOIS fallback, and
returns the result of the first source whose parsed record satisfies the
validity predicate (falling back to the canonical unresolved record); in
particular, whenever the bulk client's record is valid it is returned,
whatever the registry or RDAP sources would have answered. -/
theorem c1_resolve_source_priority :
    (∀ env : SourceEnv, get_route_data env = firstValidSource (cascadeSources env)) ∧
    (∀ (env : SourceEnv) (cd : RouteData),
      cymruAttempt env = .ok (some cd) → get_route_data env = .ok cd) := by
  have hA : ∀ env : SourceEnv, get_route_data env = firstValidSource (cascadeSources env) := by
    intro env
    have hca : cascadeSources env =
        cymruAttempt env ::
          ((ROUTING_APIS.flatMap fun p => p.2.map (tryEndpoint env p.1)) ++ [rdapPhase env]) := rfl
    cases hq : query_team_cymru env.cymruResponse with
    | none =>
      have h1 : get_route_data env = routeDataAfterCymru env := by
        simp [get_route_data, hq]
      have h2 : cymruAttempt env = .ok none := by
        simp [cymruAttempt, hq]
      rw [h1, hca, h2]
      simp only [firstValidSource]
      exact afterCymru_eq_firstValid env
    | some cd =>
      cases hasns : cd.asns with
      | nil =>
        have h1 : get_route_data env = .error () := by
          simp [get_route_data, hq, hasns]
        have h2 : cymruAttempt env = .error () := by
          simp [cymruAttempt, hq, hasns]
        rw [h1, hca, h2]
        rfl
      | cons e es =>
        cases hv : is_valid_data e.asn e.holder with
        | error err =>
          have h1 : get_route_data env = .error err := by
            simp [get_route_data, hq, hasns, hv]
          have h2 : cymruAttempt env = .error err := by
            simp [cymruAttempt, hq, hasns, hv]
          rw [h1, hca, h2]
          rfl
        | ok b =>
          cases b with
          | true =>
            have h1 : get_route_data env = .ok cd := by
              simp [get_route_data, hq, hasns, hv]
            have h2 : cymruAttempt env = .ok (some cd) := by
              simp [cymruAttempt, hq, hasns, hv]
            rw [h1, hca, h2]
            rfl
          | false =>
            have h1 : get_route_data env = routeDataAfterCymru env := by
              simp [get_route_data, hq, hasns, hv]
            have h2 : cymruAttempt env = .ok none := by
              simp [cymruAttempt, hq, hasns, hv]
            rw [h1, hca, h2]
            simp only [firstValidSource]
            exact afterCymru_eq_firstValid env
  refine ⟨hA, ?_⟩
  intro env cd h
  rw [hA env]
  have hca : cascadeSources env =
      cymruAttempt env ::
        ((ROUTING_APIS.flatMap fun p => p.2.map (tryEndpoint env p.1)) ++ [rdapPhase env]) := rfl
  rw [hca, h]
  rfl

/-- Witness for claim C1 at a concrete environment whose bulk source answers
with a valid record while a registry would not: the bulk record is returned. -/
theorem c1_resolve_source_priority_witness :
    cymruAttempt c1env = .ok (some c1record) ∧ get_route_data c1env = .ok c1record :=
  ⟨rfl, c1_resolve_source_priority.2 c1env c1record rfl⟩

/-- Claim C2, counterexample: a holder consisting of the two-character string
of two double quotes is present, non-empty, and does not uppercase to NA, so
the claimed characterisation accepts it, yet is_valid_data rejects it (the
extra clause holder not equal to the quoted-empty string at source line 138). -/
theorem c2_validity_counterexample :
    specValid "64500" "\x22\x22" = true ∧
    is_valid_data (JVal.jstr "64500") (JVal.jstr "\x22\x22") = .ok false :=
  ⟨rfl, rfl⟩

/-- Claim C2 as amended: a record with string asn and holder is valid iff
both are non-empty, neither case-insensitively equals the sentinel NA, and
additionally the holder is not the literal two-character string of two double
quotes (an empty quoted organisation name). -/
theorem c2_validity_amended (asn holder : String) :
    is_valid_data (JVal.jstr asn) (JVal.jstr holder) =
      .ok (specValid asn holder && !(holder == "\x22\x22")) := by
  simp only [is_valid_data, JVal.truthy, JVal.upperE, JVal.pyEqStr, specValid]
  by_cases h1 : asn = "" <;> by_cases h2 : holder = "" <;>
    by_cases h3 : pyUpper asn = "NA" <;> by_cases h4 : pyUpper holder = "NA" <;>
      simp [h1, h2, h3, h4]

/-- Claim C3, counterexample: resolve is not exception-free.  With the bulk
source failing and the first RIPE endpoint returning a 200 JSON payload whose
data entry is a string rather than a dict, the RIPE parsing raises an
uncaught AttributeError out of get_route_data (the error outcome). -/
theorem c3_resolve_raises_counterexample : get_route_data c3env = .error () := rfl

theorem endpointsLoop_none (env : SourceEnv) (rir : String) (eps : List String)
    (h : ∀ ep, env.rirResponse ep = none) : endpointsLoop env rir eps = .ok none := by
  induction eps with
  | nil => rfl
  | cons ep rest ih => simp [endpointsLoop, tryEndpoint, h ep, ih]

theorem rirLoop_none (env : SourceEnv) (apis : List (String × List String))
    (h : ∀ ep, env.rirResponse ep = none) : rirLoop env apis = .ok none := by
  induction apis with
  | nil => rfl
  | cons p rest ih =>
    obtain ⟨rir, eps⟩ := p
    simp [rirLoop, endpointsLoop_none env rir eps h, ih]

/-- Claim C3 as amended: when every source fails at the transport level (the
bulk query yields nothing, every registry request times out, errors, returns
a non-200 status or a non-JSON body, and the RDAP fallback finds no sample or
its lookup raises), all those failures are caught locally and resolve returns
the canonical unresolved record (asn NA, holder the quoted NA sentinel); but
resolve is not exception-free in general: a 200 JSON payload of unexpected
shape raises out of it, as the counterexample shows. -/
theorem c3_transport_failures_amended (env : SourceEnv)
    (hc : query_team_cymru env.cymruResponse = none)
    (hr : ∀ ep, env.rirResponse ep = none)
    (hd : env.sampleIp = .ok none ∨
          ((∃ ip, env.sampleIp = .ok (some ip)) ∧ env.rdapResult = .error ())) :
    get_route_data env = .ok unresolved_record := by
  have hrd : rdapPhase env = .ok none := by
    rcases hd with h | ⟨⟨ip, hip⟩, herr⟩
    · simp [rdapPhase, h]
    · simp [rdapPhase, hip, herr]
  simp [get_route_data, hc, routeDataAfterCymru, rirLoop_none env ROUTING_APIS hr, hrd]

/-- Witness for the amended claim C3 at a concrete environment in which every
source fails at the transport level. -/
theorem c3_transport_failures_witness :
    query_team_cymru c3wenv.cymruResponse = none ∧
    (∀ ep, c3wenv.rirResponse ep = none) ∧
    get_route_data c3wenv = .ok unresolved_record :=
  ⟨rfl, fun _ => rfl,
   c3_transport_failures_amended c3wenv rfl (fun _ => rfl) (Or.inl rfl)⟩

/-- Claim C6, counterexample: the fixed delay is not enforced after every
outbound call.  When the bulk TCP query fails, its call event is immediately
followed by the first registry HTTP call with no sleep in between:
query_team_cymru (source lines 64-85) contains no rate limiting. -/
theorem c6_rate_limit_counterexample :
    delayedAfterEachCall (cascadeEvents c6env) = false := rfl

theorem endpointsEvents_append_slept (env : SourceEnv) (rir : String) (eps : List String)
    (b : List NetEvent) (hb : rirCallsSlept b = true) :
    rirCallsSlept ((endpointsEvents env rir eps).1 ++ b) = true := by
  induction eps with
  | nil => simpa [endpointsEvents] using hb
  | cons ep rest ih =>
    simp only [endpointsEvents]
    cases h : tryEndpoint env rir ep with
    | error e => simpa [rirCallsSlept] using hb
    | ok o =>
      cases o with
      | some r => simpa [rirCallsSlept] using hb
      | none => simpa [rirCallsSlept] using ih

theorem rirsEvents_append_slept (env : SourceEnv) (apis : List (String × List String))
    (b : List NetEvent) (hb : rirCallsSlept b = true) :
    rirCallsSlept ((rirsEvents env apis).1 ++ b) = true := by
  induction apis generalizing b with
  | nil => simpa [rirsEvents] using hb
  | cons p rest ih =>
    obtain ⟨rir, eps⟩ := p
    simp only [rirsEvents]
    cases h : (endpointsEvents env rir eps).2 with
    | true => simpa [h] using endpointsEvents_append_slept env rir eps b hb
    | false =>
      simp only [h, Bool.false_eq_true, if_false, List.append_assoc]
      exact endpointsEvents_append_slept env rir eps _ (ih b hb)

theorem rdapEvents_slept (env : SourceEnv) : rirCallsSlept (rdapEvents env) = true := by
  unfold rdapEvents
  cases h : env.sampleIp with
  | error e => rfl
  | ok o => cases o <;> rfl

/-- Claim C6 as amended: the fixed delay is enforced after every registry
HTTP request of the cascade (success or failure alike, through the finally
clause of query_rir_api), so every registry call event is immediately
followed by a sleep event; but the bulk Team Cymru TCP query and the RDAP
fallback lookup are not followed by a per-call delay (the driver instead
sleeps once per processed block and once per repaired row), so no delay
separates the bulk call from the first registry call, as the counterexample
shows. -/
theorem c6_rate_limit_amended (env : SourceEnv) :
    rirCallsSlept (cascadeEvents env) = true := by
  have hrest : rirCallsSlept (cascadeRestEvents env) = true := by
    unfold cascadeRestEvents
    cases h : (rirsEvents env ROUTING_APIS).2 with
    | true =>
      simp only [h, if_true]
      have h2 := rirsEvents_append_slept env ROUTING_APIS [] rfl
      simpa using h2
    | false =>
      simp only [h, Bool.false_eq_true, if_false]
      exact rirsEvents_append_slept env ROUTING_APIS _ (rdapEvents_slept env)
  cases hq : query_team_cymru env.cymruResponse with
  | none => simp only [cascadeEvents, hq, rirCallsSlept]; exact hrest
  | some cd =>
    cases hasns : cd.asns with
    | nil => simp only [cascadeEvents, hq, hasns]; rfl
    | cons e es =>
      cases hv : is_valid_data e.asn e.holder with
      | error err => simp only [cascadeEvents, hq, hasns, hv]; rfl
      | ok b =>
        cases b with
        | true => simp only [cascadeEvents, hq, hasns, hv]; rfl
        | false =>
          simp only [cascadeEvents, hq, hasns, hv, rirCallsSlept]
          exact hrest

/-- Claim C7, counterexample: the enrichment step can turn a valid cascade
record into an invalid one.  The cascade record (asn 64500, quoted holder) is
valid, but an enrichment response whose data dict carries a holder key with
an empty value (accepted by get_asn_info, since its data entry is a truthy
dict) replaces the holder with the empty string, which the validity predicate
rejects. -/
theorem c7_enrich_invalidates_counterexample :
    is_valid_data c7cascadeEntry.asn c7cascadeEntry.holder = .ok true ∧
    enrichMerge c7asnData c7cascadeEntry = .ok (JVal.jstr "", JVal.jstr "") ∧
    is_valid_data c7cascadeEntry.asn (JVal.jstr "") = .ok false :=
  ⟨rfl, rfl, rfl⟩

theorem enrichMerge_data_obj (d : List (String × JVal)) (first : AsnEntry) :
    enrichMerge (JVal.jobj [("data", JVal.jobj d)]) first =
      .ok ((d.lookup "holder").getD first.holder,
           (d.lookup "country").getD
             (match first.country with | some c0 => c0 | none => JVal.jstr "")) := by
  cases hh : d.lookup "holder" <;> cases hc : d.lookup "country" <;>
    simp [enrichMerge, JVal.pyItem, JVal.dictGet, List.lookup, hh, hc]

/-- Claim C7 as amended: the merge replaces holder and country exactly when
the enrichment response's data dict contains the respective key, whatever its
value (so a present-but-empty or sentinel value does override a valid cascade
value, and the step can invalidate a valid record, as the counterexample
shows); when a key is absent the cascade record's own value (or the empty
string when the cascade carried no country) is preserved, and when no
registry answers at all, get_asn_info returns the empty-data fallback and
the merge is a no-op. -/
theorem c7_enrich_merge_amended :
    (∀ (d : List (String × JVal)) (first : AsnEntry) (h c : JVal),
      enrichMerge (JVal.jobj [("data", JVal.jobj d)]) first = .ok (h, c) →
      ((d.lookup "holder" = none → h = first.holder) ∧
       (∀ v, d.lookup "holder" = some v → h = v) ∧
       (d.lookup "country" = none →
          c = (match first.country with | some c0 => c0 | none => JVal.jstr "")) ∧
       (∀ v, d.lookup "country" = some v → c = v))) ∧
    (∀ first : AsnEntry,
      enrichMerge (get_asn_info []) first =
        .ok (first.holder,
             match first.country with | some c0 => c0 | none => JVal.jstr "")) := by
  constructor
  · intro d first h c hm
    rw [enrichMerge_data_obj] at hm
    simp only [Except.ok.injEq, Prod.mk.injEq] at hm
    obtain ⟨h1, h2⟩ := hm
    refine ⟨?_, ?_, ?_, ?_⟩
    · intro hx; rw [← h1, hx]; rfl
    · intro v hx; rw [← h1, hx]; rfl
    · intro hx; rw [← h2, hx]; rfl
    · intro v hx; rw [← h2, hx]; rfl
  · intro first
    rfl

/-- Witness for the amended claim C7: a response carrying a holder key
replaces the cascade holder with exactly the carried value. -/
theorem c7_enrich_merge_witness :
    enrichMerge (JVal.jobj [("data", JVal.jobj [("holder", JVal.jstr "Better Name")])])
        c7cascadeEntry = .ok (JVal.jstr "Better Name", JVal.jstr "") ∧
    JVal.jstr "Better Name" = JVal.jstr "Better Name" :=
  ⟨rfl,
   (c7_enrich_merge_amended.1 [("holder", JVal.jstr "Better Name")] c7cascadeEntry
      (JVal.jstr "Better Name") (JVal.jstr "") rfl).2.1 (JVal.jstr "Better Name") rfl⟩

theorem parseCymruLines_asns (ls : List String) (cd : RouteData)
    (h : parseCymruLines ls = some cd) : cd.asns ≠ [] := by
  induction ls with
  | nil => simp [parseCymruLines] at h
  | cons line rest ih =>
    unfold parseCymruLines at h
    split at h
    · split at h
      · simp only [Option.some.injEq] at h
        subst h
        simp
      · exact absurd h (by simp)
    · exact ih h

theorem query_team_cymru_asns (sock : Except Unit String) (cd : RouteData)
    (h : query_team_cymru sock = some cd) : cd.asns ≠ [] := by
  cases sock with
  | error e => simp [query_team_cymru] at h
  | ok resp => exact parseCymruLines_asns _ _ h

theorem parseRIPE_asns (d : JVal) (r : RouteData)
    (h : parseRIPE d = .ok (some r)) : r.asns ≠ [] := by
  unfold parseRIPE at h
  repeat' split at h
  all_goals first
    | (simp only [Except.ok.injEq, Option.some.injEq] at h
       subst h
       simp)
    | simp_all

theorem parseEntityRIR_asns (d : JVal) (r : RouteData)
    (h : parseEntityRIR d = .ok (some r)) : r.asns ≠ [] := by
  unfold parseEntityRIR at h
  repeat' split at h
  all_goals first
    | (simp only [Except.ok.injEq, Option.some.injEq] at h
       subst h
       simp)
    | simp_all

theorem parseARIN_asns (d : JVal) (r : RouteData)
    (h : parseARIN d = .ok (some r)) : r.asns ≠ [] := by
  unfold parseARIN at h
  repeat' split at h
  all_goals first
    | (simp only [Except.ok.injEq, Option.some.injEq] at h
       subst h
       simp)
    | simp_all

theorem parseFor_asns (rir : String) (d : JVal) (r : RouteData)
    (h : parseFor rir d = .ok (some r)) : r.asns ≠ [] := by
  unfold parseFor at h
  split at h
  · exact parseRIPE_asns d r h
  · split at h
    · exact parseEntityRIR_asns d r h
    · split at h
      · exact parseEntityRIR_asns d r h
      · split at h
        · exact parseEntityRIR_asns d r h
        · split at h
          · exact parseARIN_asns d r h
          · simp at h

theorem tryEndpoint_asns (env : SourceEnv) (rir ep : String) (r : RouteData)
    (h : tryEndpoint env rir ep = .ok (some r)) : r.asns ≠ [] := by
  unfold tryEndpoint at h
  split at h
  · simp at h
  · split at h
    · exact parseFor_asns rir _ r h
    · simp at h

theorem endpointsLoop_asns (env : SourceEnv) (rir : String) (eps : List String)
    (r : RouteData) (h : endpointsLoop env rir eps = .ok (some r)) : r.asns ≠ [] := by
  induction eps with
  | nil => simp [endpointsLoop] at h
  | cons ep rest ih =>
    unfold endpointsLoop at h
    split at h
    · simp at h
    · rename_i r2 heq
      simp only [Except.ok.injEq, Option.some.injEq] at h
      subst h
      exact tryEndpoint_asns env rir ep _ heq
    · exact ih h

theorem rirLoop_asns (env : SourceEnv) (apis : List (String × List String))
    (r : RouteData) (h : rirLoop env apis = .ok (some r)) : r.asns ≠ [] := by
  induction apis with
  | nil => simp [rirLoop] at h
  | cons p rest ih =>
    unfold rirLoop at h
    split at h
    · simp at h
    · rename_i r2 heq
      simp only [Except.ok.injEq, Option.some.injEq] at h
      subst h
      exact endpointsLoop_asns env _ _ _ heq
    · exact ih h

theorem parseRdapResults_asns (results : JVal) (r : RouteData)
    (h : parseRdapResults results = .ok (some r)) : r.asns ≠ [] := by
  unfold parseRdapResults at h
  repeat' split at h
  all_goals first
    | (simp only [Except.ok.injEq, Option.some.injEq] at h
       subst h
       simp)
    | simp_all

theorem rdapPhase_asns (env : SourceEnv) (r : RouteData)
    (h : rdapPhase env = .ok (some r)) : r.asns ≠ [] := by
  unfold rdapPhase at h
  split at h
  · simp at h
  · simp at h
  · split at h
    · simp at h
    · split at h
      · simp at h
      · simp only [Except.ok.injEq] at h
        subst h
        exact parseRdapResults_asns _ _ (by assumption)

theorem get_route_data_asns (env : SourceEnv) (r : RouteData)
    (h : get_route_data env = .ok r) : r.asns ≠ [] := by
  have hafter : ∀ r' : RouteData, routeDataAfterCymru env = .ok r' → r'.asns ≠ [] := by
    intro r' h'
    unfold routeDataAfterCymru at h'
    split at h'
    · simp at h'
    · simp only [Except.ok.injEq] at h'
      subst h'
      exact rirLoop_asns env ROUTING_APIS _ (by assumption)
    · split at h'
      · simp at h'
      · simp only [Except.ok.injEq] at h'
        subst h'
        exact rdapPhase_asns env _ (by assumption)
      · simp only [Except.ok.injEq] at h'
        subst h'
        simp [unresolved_record]
  unfold get_route_data at h
  split at h
  · split at h
    · simp at h
    · split at h
      · simp at h
      · simp only [Except.ok.injEq] at h
        subst h
        exact query_team_cymru_asns env.cymruResponse _ (by assumption)
      · exact hafter r h
  · exact hafter r h

/-- Claim C10: resolve always returns a record whose asns list is non-empty
(the unresolved sentinel included), so the driver's no-routing-data branch is
unreachable: whenever a block is actually processed (not skipped) and the run
does not abort, the enrichment step is invoked on the first returned ASN --
also for unresolved blocks, with the sentinel NA -- and whenever the block
reaches the checkpoint, exactly one summary row has been appended for it. -/
theorem c10_asns_nonempty :
    (∀ (env : SourceEnv) (r : RouteData), get_route_data env = .ok r → r.asns ≠ []) ∧
    (∀ (env : RunEnv) (counts : List (String × Nat)) (subnet : String)
       (st st' : RunState) (route : RouteData),
      subnet ∉ st.processedSubnets →
      processOneSubnet env counts subnet st = .ok st' →
      get_route_data (sourceEnvFor env subnet) = .ok route →
      (∃ e es, route.asns = e :: es ∧
        st'.enriched = st.enriched ++ [JVal.pyStr e.asn]) ∧
      (st'.checkpoint ≠ st.checkpoint →
        st'.summaryRows.length = st.summaryRows.length + 1)) := by
  refine ⟨get_route_data_asns, ?_⟩
  intro env counts subnet st st' route hmem hp hroute
  unfold processOneSubnet at hp
  rw [if_neg hmem] at hp
  simp only [hroute] at hp
  simp only [Except.ok.injEq] at hp
  cases hasns : route.asns with
  | nil => exact absurd hasns (get_route_data_asns _ _ hroute)
  | cons first rest =>
    subst hp
    cases hem : enrichMerge (get_asn_info (env.asnInfo (JVal.pyStr first.asn))) first with
    | error e =>
      simp only [processBlockData, hasns, hem]
      refine ⟨⟨first, rest, rfl, rfl⟩, ?_⟩
      intro hch
      exact absurd rfl hch
    | ok pr =>
      obtain ⟨holder, country⟩ := pr
      cases hw : writeDetailRows env.inputLines subnet first.asn holder country with
      | mk drows okScan =>
        cases okScan with
        | false =>
          simp only [processBlockData, hasns, hem, hw]
          refine ⟨⟨first, rest, rfl, rfl⟩, ?_⟩
          intro hch
          exact absurd rfl hch
        | true =>
          simp only [processBlockData, hasns, hem, hw]
          refine ⟨⟨first, rest, rfl, rfl⟩, ?_⟩
          intro _
          simp

/-- Witness for claim C10 at a concrete run in which every source fails: the
block resolves to the canonical unresolved record, is still checkpointed with
exactly one summary row, and enrichment is invoked with the sentinel NA. -/
theorem c10_asns_nonempty_witness :
    unresolved_record.asns ≠ [] ∧
    processOneSubnet c10env [] "10.0.0.0/16" c10st0 = .ok c10stRes ∧
    (c10stRes.checkpoint ≠ c10st0.checkpoint →
      c10stRes.summaryRows.length = c10st0.summaryRows.length + 1) :=
  ⟨c10_asns_nonempty.1 (sourceEnvFor c10env "10.0.0.0/16") unresolved_record rfl, rfl,
   (c10_asns_nonempty.2 c10env [] "10.0.0.0/16" c10st0 c10stRes unresolved_record
      (by simp [c10st0]) rfl rfl).2⟩

/-- Claim C4: during a run, a block already in the completed set is skipped
entirely (the step returns the state unchanged, so no source is queried and
no row is written), and a block is appended to the checkpoint log and the
in-memory completed set only after its summary row was appended and the
detailed-row scan completed successfully. -/
theorem c4_checkpoint_after_writes :
    (∀ (env : RunEnv) (counts : List (String × Nat)) (subnet : String) (st : RunState),
      subnet ∈ st.processedSubnets → processOneSubnet env counts subnet st = .ok st) ∧
    (∀ (env : RunEnv) (counts : List (String × Nat)) (subnet : String) (st st' : RunState),
      processOneSubnet env counts subnet st = .ok st' →
      st'.checkpoint ≠ st.checkpoint →
      st'.checkpoint = st.checkpoint ++ [subnet] ∧
      st'.processedSubnets = st.processedSubnets ++ [subnet] ∧
      ∃ (srow : SummaryRow) (drows : List DetailRow) (asn holder country : JVal),
        st'.summaryRows = st.summaryRows ++ [srow] ∧ srow.subnet = subnet ∧
        st'.detailRows = st.detailRows ++ drows ∧
        writeDetailRows env.inputLines subnet asn holder country = (drows, true)) := by
  constructor
  · intro env counts subnet st hmem
    unfold processOneSubnet
    rw [if_pos hmem]
  · intro env counts subnet st st' hp hch
    by_cases hmem : subnet ∈ st.processedSubnets
    · unfold processOneSubnet at hp
      rw [if_pos hmem] at hp
      simp only [Except.ok.injEq] at hp
      subst hp
      exact absurd rfl hch
    · unfold processOneSubnet at hp
      rw [if_neg hmem] at hp
      cases hroute : get_route_data (sourceEnvFor env subnet) with
      | error e => simp [hroute] at hp
      | ok route =>
        simp only [hroute, Except.ok.injEq] at hp
        cases hasns : route.asns with
        | nil => exact absurd hasns (get_route_data_asns _ _ hroute)
        | cons first rest =>
          subst hp
          cases hem : enrichMerge (get_asn_info (env.asnInfo (JVal.pyStr first.asn))) first with
          | error e =>
            simp only [processBlockData, hasns, hem] at hch
            exact absurd rfl hch
          | ok pr =>
            obtain ⟨holder, country⟩ := pr
            cases hw : writeDetailRows env.inputLines subnet first.asn holder country with
            | mk drows okScan =>
              cases okScan with
              | false =>
                simp only [processBlockData, hasns, hem, hw] at hch
                exact absurd rfl hch
              | true =>
                simp only [processBlockData, hasns, hem, hw]
                exact ⟨rfl, rfl, _, drows, first.asn, holder, country, rfl, rfl, rfl, hw⟩

/-- Witness for claim C4: a block already recorded in the completed set is
skipped with the run state entirely unchanged. -/
theorem c4_checkpoint_after_writes_witness :
    ("10.0.0.0/16" ∈ c4st.processedSubnets) ∧
    processOneSubnet c4env [] "10.0.0.0/16" c4st = .ok c4st :=
  ⟨by decide, c4_checkpoint_after_writes.1 c4env [] "10.0.0.0/16" c4st (by decide)⟩

/-- The final outcome of the claim C5 counterexample run: only the first of
the two blocks is completed, yet the checkpoint file is deleted. -/
def c5out : FinalOutcome :=
  ⟨⟨[⟨"10.1.0.0/16", "1", "\x22Acme\x22", "AU", 1⟩],
    [⟨"a 10.1.0.5 x", "10.1.0.0/16", "1", "\x22Acme\x22", "AU"⟩],
    ["10.1.0.0/16"], ["10.1.0.0/16"],
    ["10.1.0.0/16", "10.2.0.0/16"], ["1", "2"]⟩,
   [⟨"10.1.0.0/16", "1", "\x22Acme\x22", "AU", 1⟩],
   [⟨"a 10.1.0.5 x", "10.1.0.0/16", "1", "\x22Acme\x22", "AU"⟩],
   true⟩

/-- Claim C5, counterexample: the checkpoint log is deleted even though a
block failed to process.  In the c5env run the second block's enrichment
merge raises (caught by the per-block handler), so the block is left without
a completed entry, yet the run reaches the final cleanup and deletes the
checkpoint file. -/
theorem c5_checkpoint_deleted_counterexample :
    process_routes c5env false [] false [] [] = .ok c5out ∧
    (get_unique_subnets c5env.inputLines).1 = ["10.1.0.0/16", "10.2.0.0/16"] ∧
    c5out.checkpointDeleted = true ∧
    "10.2.0.0/16" ∉ c5out.state.processedSubnets :=
  ⟨rfl, rfl, rfl, by decide⟩

/-- Claim C5 as amended: the checkpoint log is deleted whenever the driver's
loop (and optional repair pass) runs to the end without an uncaught
exception and the checkpoint file exists -- on a resumed run always, on a
fresh run as soon as any block was checkpointed -- regardless of whether
every block got a completed entry; it survives only when the run aborts with
an uncaught exception. -/
theorem c5_checkpoint_deletion_amended (env : RunEnv) (cm : Bool)
    (init : List String) (ps : List SummaryRow) (pd : List DetailRow)
    (out : FinalOutcome) :
    (process_routes env cm init true ps pd = .ok out →
       out.checkpointDeleted = true) ∧
    (process_routes env cm init false ps pd = .ok out →
       out.checkpointDeleted = !out.state.checkpoint.isEmpty) := by
  constructor <;>
  · intro h
    unfold process_routes at h
    split at h
    · exact absurd h (by simp)
    · split at h
      · exact absurd h (by simp)
      · simp only [Except.ok.injEq] at h
        subst h
        simp

/-- Witness for the amended claim C5 at the concrete two-block run. -/
theorem c5_checkpoint_deletion_witness :
    c5out.checkpointDeleted = !c5out.state.checkpoint.isEmpty :=
  (c5_checkpoint_deletion_amended c5env false [] [] [] c5out).2 rfl

/-- Claim C8, counterexample: the repair pass updates the owning block's
summary row even when that row was not unresolved.  The detailed file has one
missing row that the DNS source resolves to ASN 64501; the summary row of the
same block is already resolved (ASN 64500, no NA anywhere), yet it is
overwritten with the DNS answer. -/
theorem c8_summary_overwrite_counterexample :
    repairPass c8digOrigin c8digAsn c8detailed c8summary =
      .ok ([⟨"x 1.2.3.4 y", "1.2.0.0/16", "64501", "\x22Other Org\x22", ""⟩],
           [⟨"1.2.0.0/16", "64501", "\x22Other Org\x22", "AU", 3⟩]) ∧
    (∀ r ∈ c8summary, pyUpper r.asn ≠ "NA") :=
  ⟨rfl, by decide⟩

/-- Claim C8 as amended: over rows whose original lines carry a second token,
the repair loop maps every detailed row through rowRepair -- a missing row
that both DNS queries resolve is overwritten with the DNS answer, every other
row (not missing, or unresolvable) is left unchanged -- and, for every
repaired row in file order, overwrites the first summary row with the
matching subnet regardless of whether that summary row was itself
unresolved; the updated flag is set iff some row was repaired. -/
theorem summaryAfterRepair_cons (digOrigin digAsn : String → String)
    (r : DetailRow) (rest : List DetailRow) (summary : List SummaryRow) :
    summaryAfterRepair digOrigin digAsn (r :: rest) summary =
      summaryAfterRepair digOrigin digAsn rest
        (match repairedFields digOrigin digAsn r with
         | some (a, desc) => updateSummaryFirst summary r.subnet a desc
         | none => summary) := rfl

theorem c8_repair_amended (digOrigin digAsn : String → String)
    (rows : List DetailRow) (summary : List SummaryRow)
    (htok : ∀ r ∈ rows, isMissingRow r = true → token1 r.original_line ≠ none) :
    repairLoop digOrigin digAsn rows summary =
      .ok (rows.map (rowRepair digOrigin digAsn),
           summaryAfterRepair digOrigin digAsn rows summary,
           rows.any (fun r => (repairedFields digOrigin digAsn r).isSome)) := by
  induction rows generalizing summary with
  | nil => rfl
  | cons r rest ih =>
    have htok' : ∀ x ∈ rest, isMissingRow x = true → token1 x.original_line ≠ none :=
      fun x hx => htok x (List.mem_cons_of_mem r hx)
    by_cases hm : isMissingRow r = true
    · cases htk : token1 r.original_line with
      | none => exact absurd htk (htok r (List.mem_cons_self r rest) hm)
      | some ip =>
        cases hq : query_cymru_dns digOrigin digAsn ip with
        | none =>
          have hF : repairedFields digOrigin digAsn r = none := by
            simp [repairedFields, hm, htk, hq]
          simp only [repairLoop, hm, htk, hq, if_true]
          rw [ih summary htok', List.map_cons, summaryAfterRepair_cons, List.any_cons, hF]
          simp [rowRepair, hF]
        | some pr =>
          obtain ⟨a, desc⟩ := pr
          by_cases ha : (!(a == "") && !(desc == "")) = true
          · have hF : repairedFields digOrigin digAsn r = some (a, desc) := by
              simp only [repairedFields, hm, if_true, htk, hq, ha]
            simp only [repairLoop, hm, htk, hq, ha, if_true]
            rw [ih _ htok', List.map_cons, summaryAfterRepair_cons, List.any_cons, hF]
            simp [rowRepair, hF]
          · have hF : repairedFields digOrigin digAsn r = none := by
              simp [repairedFields, hm, htk, hq, ha]
            simp only [repairLoop, hm, htk, hq, ha, if_true, if_false]
            rw [ih summary htok', List.map_cons, summaryAfterRepair_cons, List.any_cons, hF]
            simp [rowRepair, hF]
    · simp only [Bool.not_eq_true] at hm
      have hF : repairedFields digOrigin digAsn r = none := by
        simp [repairedFields, hm]
      simp only [repairLoop, hm, Bool.false_eq_true, if_false]
      rw [ih summary htok', List.map_cons, summaryAfterRepair_cons, List.any_cons, hF]
      simp [rowRepair, hF]

/-- Witness for the amended claim C8 at the concrete one-row repair. -/
theorem c8_repair_amended_witness :
    repairLoop c8digOrigin c8digAsn c8detailed c8summary =
      .ok (c8detailed.map (rowRepair c8digOrigin c8digAsn),
           summaryAfterRepair c8digOrigin c8digAsn c8detailed c8summary,
           c8detailed.any (fun r => (repairedFields c8digOrigin c8digAsn r).isSome)) :=
  c8_repair_amended c8digOrigin c8digAsn c8detailed c8summary (by decide)

theorem splitOnChar_not_mem (sep : Char) (xs : List Char) (h : sep ∉ xs) :
    splitOnChar sep xs = [xs] := by
  induction xs with
  | nil => rfl
  | cons c rest ih =>
    simp only [List.mem_cons, not_or] at h
    have h1 : ¬(c = sep) := fun e => h.1 e.symm
    simp only [splitOnChar]
    rw [if_neg h1, ih h.2]

theorem splitOnChar_append (sep : Char) (xs ys : List Char) (h : sep ∉ xs) :
    splitOnChar sep (xs ++ sep :: ys) = xs :: splitOnChar sep ys := by
  induction xs with
  | nil => simp [splitOnChar]
  | cons c rest ih =>
    simp only [List.mem_cons, not_or] at h
    have h1 : ¬(c = sep) := fun e => h.1 e.symm
    show splitOnChar sep (c :: (rest ++ sep :: ys)) = _
    simp only [splitOnChar]
    rw [if_neg h1, ih h.2]

theorem lookupCount_cons (k2 : String) (n : Nat) (rest : List (String × Nat))
    (blk : String) :
    lookupCount ((k2, n) :: rest) blk =
      if blk = k2 then n else lookupCount rest blk := by
  by_cases h : blk = k2
  · subst h
    simp [lookupCount, List.lookup]
  · have hb : (blk == k2) = false := beq_eq_false_iff_ne.mpr h
    simp [lookupCount, List.lookup, hb, h]

theorem lookupCount_bumpCount (acc : List (String × Nat)) (k blk : String) :
    lookupCount (bumpCount acc k) blk =
      lookupCount acc blk + (if k = blk then 1 else 0) := by
  induction acc with
  | nil =>
    rw [show bumpCount [] k = [(k, 1)] from rfl, lookupCount_cons]
    by_cases h : blk = k
    · rw [if_pos h, if_pos h.symm]
      simp [lookupCount, List.lookup]
    · rw [if_neg h, if_neg (fun e => h e.symm)]
      simp [lookupCount, List.lookup]
  | cons p rest ih =>
    obtain ⟨k2, n⟩ := p
    by_cases hk : k2 = k
    · subst hk
      rw [show bumpCount ((k2, n) :: rest) k2 = (k2, n + 1) :: rest from by
            simp [bumpCount]]
      rw [lookupCount_cons, lookupCount_cons]
      by_cases h : blk = k2
      · rw [if_pos h, if_pos h, if_pos h.symm]
      · rw [if_neg h, if_neg h, if_neg (fun e => h e.symm)]
        simp
    · rw [show bumpCount ((k2, n) :: rest) k = (k2, n) :: bumpCount rest k from by
            simp [bumpCount, beq_iff_eq, hk]]
      rw [lookupCount_cons, lookupCount_cons]
      by_cases h : blk = k2
      · rw [if_pos h, if_pos h, if_neg (fun e => hk ((e.trans h).symm))]
        simp
      · rw [if_neg h, if_neg h]
        exact ih

theorem lookupCount_tokfold (toks : List (List Char)) (acc : List (String × Nat))
    (blk : String) :
    lookupCount (toks.foldl (fun a tok =>
        if validIPv4Tok tok then bumpCount a (String.mk (subnetOfTok tok)) else a) acc) blk =
      lookupCount acc blk +
        (toks.filter validIPv4Tok).countP
          (fun tok => String.mk (subnetOfTok tok) == blk) := by
  induction toks generalizing acc with
  | nil => simp
  | cons t ts ih =>
    by_cases hv : validIPv4Tok t = true
    · simp only [List.foldl_cons, hv, if_true, List.filter_cons, List.countP_cons]
      rw [ih, lookupCount_bumpCount]
      by_cases h : String.mk (subnetOfTok t) = blk <;> simp [h]
      all_goals omega
    · simp only [Bool.not_eq_true] at hv
      simp [List.foldl_cons, hv, ih, List.filter_cons]

theorem lookupCount_tally (lines : List String) (acc : List (String × Nat)) (blk : String) :
    lookupCount (lines.foldl tallyLine acc) blk =
      lookupCount acc blk + blockOccurrences lines blk := by
  induction lines generalizing acc with
  | nil => simp [blockOccurrences]
  | cons line rest ih =>
    simp only [List.foldl_cons, blockOccurrences, List.map_cons, List.sum_cons]
    rw [ih]
    unfold tallyLine
    rw [lookupCount_tokfold]
    simp only [blockOccurrences]
    omega

/-- Claim C9, counterexample: counts are per address occurrence, not per
input line.  A single line carrying two addresses of the same block gives
that block a count of 2 although the block appears in only one input line. -/
theorem c9_count_lines_counterexample :
    lookupCount (get_unique_subnets ["1.2.3.4 1.2.3.5"]).2 "1.2.0.0/16" = 2 ∧
    linesContainingBlock ["1.2.3.4 1.2.3.5"] "1.2.0.0/16" = 1 :=
  ⟨rfl, rfl⟩

/-- Claim C9 as amended: every address token a.b.c.d is mapped to the block
a.b.0.0/16; the count of a block equals the number of valid address
occurrences across all input lines whose derived block it is (so a line
carrying two addresses of the block contributes two, and malformed tokens,
which ip_address rejects, contribute nothing); and counts are independent of
the processing order of the lines. -/
theorem c9_aggregate_amended :
    (∀ a b c d : List Char, '.' ∉ a → '.' ∉ b → '.' ∉ c → '.' ∉ d →
      subnetOfTok (a ++ ('.' :: (b ++ ('.' :: (c ++ ('.' :: d)))))) =
        a ++ ('.' :: (b ++ ".0.0/16".toList))) ∧
    (∀ (lines : List String) (blk : String),
      lookupCount (get_unique_subnets lines).2 blk = blockOccurrences lines blk) ∧
    (∀ (l1 l2 : List String) (blk : String), l1.Perm l2 →
      lookupCount (get_unique_subnets l1).2 blk =
        lookupCount (get_unique_subnets l2).2 blk) := by
  have hcount : ∀ (lines : List String) (blk : String),
      lookupCount (get_unique_subnets lines).2 blk = blockOccurrences lines blk := by
    intro lines blk
    show lookupCount (lines.foldl tallyLine []) blk = _
    rw [lookupCount_tally]
    simp [lookupCount, List.lookup]
  refine ⟨?_, hcount, ?_⟩
  · intro a b c d ha hb hc hd
    unfold subnetOfTok
    rw [splitOnChar_append '.' a _ ha, splitOnChar_append '.' b _ hb,
        splitOnChar_append '.' c _ hc, splitOnChar_not_mem '.' d hd]
    simp [joinDots, List.append_assoc]
  · intro l1 l2 blk hperm
    rw [hcount, hcount]
    unfold blockOccurrences
    exact (hperm.map _).sum_eq

/-- Witness for the amended claim C9 at a concrete token and a concrete
two-line permutation. -/
theorem c9_aggregate_amended_witness :
    subnetOfTok ("1.2.3.4".toList) = "1.2.0.0/16".toList ∧
    lookupCount (get_unique_subnets ["a 1.2.3.4", "b 9.9.9.9"]).2 "1.2.0.0/16" =
      lookupCount (get_unique_subnets ["b 9.9.9.9", "a 1.2.3.4"]).2 "1.2.0.0/16" :=
  ⟨c9_aggregate_amended.1 ['1'] ['2'] ['3'] ['4']
     (by decide) (by decide) (by decide) (by decide),
   c9_aggregate_amended.2.2 ["a 1.2.3.4", "b 9.9.9.9"] ["b 9.9.9.9", "a 1.2.3.4"]
     "1.2.0.0/16" (by decide)⟩
